import Mathlib

/-!
Verification of the text-extraction-and-AI-likelihood pipeline of the
`jntuhuces` repository (`src/components/SplashScreen.tsx`, second Scanner
variant).  The detectors (`checkAIPatterns`, `localStatisticalAnalysis`,
`detectAI`), the score resolver (`performAnalysis`) and the extraction
cascade (`startScan`) are embedded as pure Lean functions; network effects
(the cloud classifier responses and the outcome of each OCR strategy) are
passed in as explicit parameters.  JavaScript floating-point arithmetic is
modelled over `ℚ`, JavaScript strings over Lean `String`/`List Char`.
-/

/-- Whitespace test used to model the JS regex class `\s` and `trim()`. -/
def isWS (c : Char) : Bool := c.isWhitespace

/-- Model of `text.replace(regex-for-whitespace-runs, " ")`: every maximal run of
whitespace characters is replaced by a single space. -/
def squeeze : List Char → List Char
  | [] => []
  | [c] => [if isWS c then ' ' else c]
  | a :: b :: cs =>
    if isWS a && isWS b then squeeze (b :: cs)
    else (if isWS a then ' ' else a) :: squeeze (b :: cs)

/-- Drop leading and trailing whitespace from a character list. -/
def trimL (l : List Char) : List Char :=
  ((l.dropWhile isWS).reverse.dropWhile isWS).reverse

/-- Model of JavaScript `String.prototype.trim`. -/
def jsTrim (s : String) : String := ⟨trimL s.data⟩

/-- `cleanText` of the source: collapse whitespace runs to single spaces, then trim. -/
def cleanList (s : String) : List Char := trimL (squeeze s.data)

/-- Lower-casing, modelling JS `toLowerCase` on the ASCII range. -/
def lowerL (l : List Char) : List Char := l.map Char.toLower

/-- Does `pat` start the list `l`? -/
def leadsWith : List Char → List Char → Bool
  | [], _ => true
  | _ :: _, [] => false
  | a :: as, b :: bs => (a == b) && leadsWith as bs

/-- Model of JS `String.prototype.includes`: `pat` occurs contiguously in `l`. -/
def occursIn (pat : List Char) (l : List Char) : Bool :=
  match l with
  | [] => leadsWith pat []
  | _ :: t => leadsWith pat l || occursIn pat t

/-- Model of JS `str.split(" ")` (split at every single space, keeping empties). -/
def splitSp : List Char → List (List Char)
  | [] => [[]]
  | c :: cs =>
    match splitSp cs with
    | [] => [[c]]
    | w :: ws => if c = ' ' then [] :: w :: ws else (c :: w) :: ws

/-- Sentence-terminating punctuation of the regex used in the source. -/
def isTerm (c : Char) : Bool := c = '.' || c = '!' || c = '?'

/-- Engine behind the JS global regex match for a run of non-terminators followed
by a run of terminators.  `body` and `terms` accumulate (reversed) the current
sentence body and its trailing punctuation. -/
def sentCore : List Char → List Char → List Char → List (List Char)
  | [], _, [] => []
  | [], body, terms => [body.reverse ++ terms.reverse]
  | c :: cs, body, [] =>
    if isTerm c then
      if body.isEmpty then sentCore cs [] []
      else sentCore cs body [c]
    else sentCore cs (c :: body) []
  | c :: cs, body, terms =>
    if isTerm c then sentCore cs body (c :: terms)
    else (body.reverse ++ terms.reverse) :: sentCore cs [c] []

/-- `cleanText.match(sentence-regex) || [cleanText]` of the source. -/
def sentencesOf (s : String) : List (List Char) :=
  match sentCore (cleanList s) [] [] with
  | [] => [cleanList s]
  | l => l

/-- Per-sentence word counts, via `split(" ").length` as in the source. -/
def wordCounts (s : String) : List Nat :=
  (sentencesOf s).map (fun sen => (splitSp sen).length)

/-- The word list of the cleaned text (`cleanText.split(" ")`). -/
def wordsOf (s : String) : List (List Char) := splitSp (cleanList s)

/-- Mean per-sentence word count (`avgLen` of the source). -/
def meanSentenceLen (s : String) : ℚ :=
  ((wordCounts s).sum : ℚ) / ((wordCounts s).length : ℚ)

/-- Population variance of per-sentence word counts; the source compares
`Math.sqrt` of this value (the "burstiness") against 6 and 12. -/
def statVariance (s : String) : ℚ :=
  ((wordCounts s).map (fun n => ((n : ℚ) - meanSentenceLen s) ^ 2)).sum
    / ((wordCounts s).length : ℚ)

/-- Average word length over all words of the cleaned text. -/
def avgWordLen (s : String) : ℚ :=
  (((wordsOf s).map List.length).sum : ℚ) / ((wordsOf s).length : ℚ)

/-- A detector verdict: a score and a human-readable reason. -/
structure ScoredReason where
  score : ℤ
  reason : String
deriving DecidableEq

/-- The fixed phrase blacklist of `checkAIPatterns`. -/
def aiPhrases : List String :=
  ["as an ai language model", "regenerate response", "language model",
   "it is important to note", "in summary", "in conclusion", "moreover",
   "furthermore", "consequently", "on the other hand", "additionally",
   "however", "thus", "therefore", "significantly", "notably", "crucial to",
   "essential to", "paramount importance", "delves into", "underscore",
   "emphasize", "comprehensive", "landscape of", "realm of", "tapestry",
   "nuanced", "multifaceted", "pivotal role", "key aspects", "worth noting",
   "by and large", "in essence"]

/-- The blacklist phrases found in `text` (case-insensitive substring match),
in list order, as collected by the `forEach` loop of the source. -/
def matchedPhrases (text : String) : List String :=
  aiPhrases.filter (fun p => occursIn (lowerL p.data) (lowerL text.data))

/-- `checkAIPatterns` of the source: 0 matches → score 0 and empty reason;
1 match → 65; 2 or more → 98; the reason quotes the first three matches. -/
def checkAIPatterns (text : String) : ScoredReason :=
  let found := matchedPhrases text
  if found.length > 0 then
    ⟨if found.length > 1 then 98 else 65,
     "Detected AI-typical phrasing: \"" ++
       String.intercalate "\", \"" (found.take 3) ++ "\""⟩
  else ⟨0, ""⟩

/-- The score of `localStatisticalAnalysis`: base 20, +20 for the sentence-length
sweet spot, +55 / +30 for low burstiness (the source tests
`Math.sqrt variance < 6` and `< 12`, equivalent to `variance < 36` / `< 144`),
+10 for long words, capped at 100. -/
def statScore (text : String) : ℤ :=
  let base : ℤ := 20
  let a := if 12 < meanSentenceLen text ∧ meanSentenceLen text < 28 then base + 20 else base
  let b :=
    if statVariance text < 36 then a + 55
    else if statVariance text < 144 then a + 30
    else a
  let c := if 5 < avgWordLen text then b + 10 else b
  min c 100

/-- The rationale phrases pushed by `localStatisticalAnalysis`, in push order. -/
def statReasons (text : String) : List String :=
  (if 12 < meanSentenceLen text ∧ meanSentenceLen text < 28 then
     ["Average sentence length matches AI patterns."] else []) ++
  (if statVariance text < 36 then
     ["Sentence structure is unnaturally uniform (Robotic)."]
   else if statVariance text < 144 then
     ["Lacks human-like variation in sentence length."]
   else [])

/-- `localStatisticalAnalysis` of the source: always returns a verdict. -/
def localStatisticalAnalysis (text : String) : ScoredReason :=
  ⟨statScore text,
   if (statReasons text).isEmpty then "Text seems robotic."
   else String.intercalate " " (statReasons text)⟩

/-- Outcome of one `fetch` to a classifier endpoint, as the source distinguishes
them: `netFail` models a rejected promise or a `json()` parse throw (caught by
the surrounding try/catch), `httpErr` a response with `ok = false`, and `ok j`
a parsed body whose first element `j` is the label/score list (`none` when the
body does not have that shape). -/
inductive FetchOutcome where
  | netFail
  | httpErr
  | ok (j : Option (List (String × ℚ)))
deriving DecidableEq

/-- `json[0]?.find(x => want x.label)?.score || 0` of the source. -/
def labelScore (want : String → Bool) : FetchOutcome → ℚ
  | .ok j => ((((j.getD []).find? (fun x => want x.1)).map Prod.snd).getD 0)
  | _ => 0

/-- A remote-ensemble verdict (score, reason, winning source model). -/
structure CloudVerdict where
  score : ℤ
  reason : String
  source : String
deriving DecidableEq

/-- JS `text.slice(0, 510)`: the request payload sent to both classifiers. -/
def truncate510 (s : String) : String := ⟨s.data.take 510⟩

/-- JS `Math.round` for nonnegative arguments: round half away from zero. -/
def jsRound (q : ℚ) : ℤ := ⌊q + 1 / 2⌋

/-- The label predicate of endpoint A (`x.label === "Fake"`). -/
def wantA (l : String) : Bool := l == "Fake"

/-- The label predicate of endpoint B (`x.label === "ChatGPT" || x.label === "Fake"`). -/
def wantB (l : String) : Bool := l == "ChatGPT" || l == "Fake"

/-- `detectAI` of the source.  The two endpoints are passed as functions from the
submitted payload to a `FetchOutcome`; the source truncates the text to 510
characters, fires both requests, and folds the two "fake" probabilities through
the `maxScore` accumulator.  A rejected promise or `json()` throw on either
endpoint lands in the catch-all (`Promise.all` rejects), yielding `none`. -/
def detectAI (text : String) (eA eB : String → FetchOutcome) : Option CloudVerdict :=
  let rA := eA (truncate510 text)
  let rB := eB (truncate510 text)
  if rA = .netFail ∨ rB = .netFail then none
  else
    let fakeA := labelScore wantA rA
    let fakeB := labelScore wantB rB
    let acc1 : ℚ × String := if 0 < fakeA then (fakeA, "RoBERTa Model") else (0, "")
    let acc2 : ℚ × String := if acc1.1 < fakeB then (fakeB, "ChatGPT Detector") else acc1
    if 1 / 2 < acc2.1 then
      some ⟨jsRound (acc2.1 * 100), "Deep Learning analysis flagged AI patterns.", acc2.2⟩
    else none

/-- The maximum "AI" probability across the two responses (with the accumulator
initialised to 0 as in the source). -/
def maxProb (rA rB : FetchOutcome) : ℚ :=
  max (max 0 (labelScore wantA rA)) (labelScore wantB rB)

/-- The source string recorded for the winning endpoint. -/
def maxProbSource (rA rB : FetchOutcome) : String :=
  let a1 : ℚ × String :=
    if 0 < labelScore wantA rA then (labelScore wantA rA, "RoBERTa Model") else (0, "")
  if a1.1 < labelScore wantB rB then "ChatGPT Detector" else a1.2

/-- One segment of the analysis output. -/
structure Segment where
  text : String
  isAi : Bool
deriving DecidableEq

/-- The analysis output published by `performAnalysis`. -/
structure AnalysisResult where
  aiPercentage : ℤ
  reasoning : String
  segments : List Segment
deriving DecidableEq

/-- The resolver if-chain of `performAnalysis`: pattern verdict if its score
exceeds 50, else the cloud verdict if present and beating the statistical
score, else the statistical verdict. -/
def resolvedVerdict (text : String) (cloud : Option CloudVerdict) : ScoredReason :=
  let patternResult := checkAIPatterns text
  let statResult := localStatisticalAnalysis text
  if patternResult.score > 50 then ⟨patternResult.score, patternResult.reason⟩
  else
    match cloud with
    | some c =>
      if c.score > statResult.score then ⟨c.score, c.reason⟩
      else ⟨statResult.score, statResult.reason⟩
    | none => ⟨statResult.score, statResult.reason⟩

/-- The final floor/cap of `performAnalysis`: `if (aiScore < 10) aiScore = 15;
if (aiScore > 99) aiScore = 99`. -/
def clampScore (n : ℤ) : ℤ :=
  let n1 := if n < 10 then 15 else n
  if n1 > 99 then 99 else n1

/-- `performAnalysis` of the source, with the awaited cloud verdict passed in. -/
def performAnalysis (text : String) (cloud : Option CloudVerdict) : AnalysisResult :=
  let r := resolvedVerdict text cloud
  let s := clampScore r.score
  ⟨s, r.reason, [⟨text, decide (s > 50)⟩]⟩

/-- The state left by the extraction cascade of `startScan`: the final value of
the `extracted` variable, whether strategies 2 and 3 were attempted, and
whether the run ended in the terminal "could not extract text" failure.  Each
strategy is modelled by the text it assigns to `extracted` (`none` when the
strategy threw, returned a non-ok response, or had the wrong shape, leaving
`extracted` untouched). -/
structure CascadeRun where
  extracted : String
  tried2 : Bool
  tried3 : Bool
  failed : Bool
deriving DecidableEq

/-- The cascade control flow of `startScan` (strategy 1 → guard → strategy 2 →
guard → strategy 3 → final emptiness check). -/
def runCascade (s1 s2 s3 : Option String) : CascadeRun :=
  let e1 := s1.getD ""
  let t2 := e1.length < 5
  let e2 := if t2 then s2.getD e1 else e1
  let t3 := e2.length < 5
  let e3 := if t3 then s3.getD e2 else e2
  ⟨e3, t2, t3, decide ((jsTrim e3).length = 0)⟩

/-- The tail of `startScan`: analysis runs exactly when the cascade did not fail. -/
def startScan (s1 s2 s3 : Option String) (cloud : Option CloudVerdict) :
    Option AnalysisResult :=
  let r := runCascade s1 s2 s3
  if r.failed then none else some (performAnalysis r.extracted cloud)

/-- Sample input: a one-word sentence, a two-word sentence and a 29-word
sentence of six-letter words.  Sentence word counts (as the source counts them,
with the leading space of later sentences contributing an empty split piece)
are 1, 2 and 30, so the mean is 11 and the burstiness is √(542/3) ≈ 13.4; the
average word length is 184/31 ≈ 5.9. -/
def sampleLongWords : String :=
  "Zzzzzz. Z." ++ String.join (List.replicate 29 " zzzzzz") ++ "."

/-- Sample input with the same sentence structure as `sampleLongWords` but
one-letter words, making the average word length 35/31 ≈ 1.1. -/
def sampleShortWords : String :=
  "Qq. Q." ++ String.join (List.replicate 29 " q") ++ "."

set_option maxRecDepth 1000000
set_option maxHeartbeats 1600000

/-! ## Helper lemmas -/

/-- Dropping a prefix never lengthens a list. -/
theorem dropWhileLen (p : Char → Bool) : ∀ l : List Char, (l.dropWhile p).length ≤ l.length
  | [] => Nat.le_refl _
  | a :: t => by
    simp only [List.dropWhile]
    cases hpa : p a
    · simp
    · simpa using Nat.le_succ_of_le (dropWhileLen p t)

/-- Trimming never lengthens a string. -/
theorem jsTrim_length_le (s : String) : (jsTrim s).length ≤ s.length := by
  show (trimL s.data).length ≤ s.data.length
  simp only [trimL]
  calc ((s.data.dropWhile isWS).reverse.dropWhile isWS).reverse.length
      = ((s.data.dropWhile isWS).reverse.dropWhile isWS).length := by
        exact List.length_reverse _
    _ ≤ (s.data.dropWhile isWS).reverse.length := dropWhileLen _ _
    _ = (s.data.dropWhile isWS).length := List.length_reverse _
    _ ≤ s.data.length := dropWhileLen _ _

/-- The statistical detector never goes below its base score of 20. -/
theorem twenty_le_statScore (text : String) : 20 ≤ statScore text := by
  simp only [statScore]
  split_ifs <;> exact le_min (by norm_num) (by norm_num)

/-- Branch lemma: a pattern score above 50 wins the resolver. -/
theorem resolvedVerdict_of_pattern (text : String) (cloud : Option CloudVerdict)
    (h : 50 < (checkAIPatterns text).score) :
    resolvedVerdict text cloud = checkAIPatterns text := by
  simp only [resolvedVerdict]
  rw [if_pos h]

/-- Branch lemma: with no dispositive pattern score, a present cloud verdict
beating the statistical score wins the resolver. -/
theorem resolvedVerdict_of_cloud (text : String) (c : CloudVerdict)
    (h : ¬ 50 < (checkAIPatterns text).score)
    (h2 : (localStatisticalAnalysis text).score < c.score) :
    resolvedVerdict text (some c) = ⟨c.score, c.reason⟩ := by
  simp only [resolvedVerdict]
  rw [if_neg h, if_pos h2]

/-- Branch lemma: otherwise the statistical verdict wins the resolver. -/
theorem resolvedVerdict_of_stat (text : String) (cloud : Option CloudVerdict)
    (h : ¬ 50 < (checkAIPatterns text).score)
    (h2 : ∀ c, cloud = some c → c.score ≤ (localStatisticalAnalysis text).score) :
    resolvedVerdict text cloud = localStatisticalAnalysis text := by
  cases cloud with
  | none =>
    simp only [resolvedVerdict]
    rw [if_neg h]
  | some c =>
    simp only [resolvedVerdict]
    rw [if_neg h, if_neg (not_lt.mpr (h2 c rfl))]

/-! ## Claim theorems -/

/-- C1: for every input text, the resolver picks the final verdict by strict
priority — the Pattern Detector's verdict when its score exceeds 50, else a
present Remote-Ensemble verdict whose score strictly beats the Statistical
score, else the Statistical verdict; the published reasoning is exactly the
chosen verdict's reason (scores are never averaged). -/
theorem resolver_accuser_priority (text : String) (cloud : Option CloudVerdict) :
    (50 < (checkAIPatterns text).score →
      resolvedVerdict text cloud = checkAIPatterns text) ∧
    ((checkAIPatterns text).score ≤ 50 →
      ∀ c, cloud = some c → (localStatisticalAnalysis text).score < c.score →
        resolvedVerdict text cloud = ⟨c.score, c.reason⟩) ∧
    ((checkAIPatterns text).score ≤ 50 →
      (∀ c, cloud = some c → c.score ≤ (localStatisticalAnalysis text).score) →
        resolvedVerdict text cloud = localStatisticalAnalysis text) ∧
    (performAnalysis text cloud).reasoning = (resolvedVerdict text cloud).reason := by
  refine ⟨fun h => resolvedVerdict_of_pattern text cloud h, ?_, ?_, rfl⟩
  · intro h c hc h2
    subst hc
    exact resolvedVerdict_of_cloud text c (not_lt.mpr h) h2
  · intro h h2
    exact resolvedVerdict_of_stat text cloud (not_lt.mpr h) h2

/-- Witness for C1 at a text with two blacklist phrases (pattern score 98). -/
theorem resolver_accuser_priority_ex :
    resolvedVerdict "In conclusion, furthermore." none =
      checkAIPatterns "In conclusion, furthermore." :=
  (resolver_accuser_priority "In conclusion, furthermore." none).1 (by decide)

/-- C2: the floor and cap are applied to the resolved score, after resolution:
a resolved score below 10 becomes exactly 15, one above 99 becomes exactly 99,
and anything else passes through unchanged. -/
theorem final_clamps (text : String) (cloud : Option CloudVerdict) :
    (performAnalysis text cloud).aiPercentage =
      (if (resolvedVerdict text cloud).score < 10 then 15
       else if 99 < (resolvedVerdict text cloud).score then 99
       else (resolvedVerdict text cloud).score) := by
  show clampScore (resolvedVerdict text cloud).score = _
  simp only [clampScore]
  split_ifs <;> omega

/-- C8: the analysis result has exactly one segment, carrying the whole input
text, and its AI flag is set exactly when the final post-clamp score
exceeds 50. -/
theorem single_segment_flag (text : String) (cloud : Option CloudVerdict) :
    (performAnalysis text cloud).segments =
      [⟨text, decide (50 < (performAnalysis text cloud).aiPercentage)⟩] ∧
    (((performAnalysis text cloud).segments.headD ⟨"", false⟩).isAi = true ↔
      50 < (performAnalysis text cloud).aiPercentage) := by
  refine ⟨rfl, ?_⟩
  show (decide (50 < (performAnalysis text cloud).aiPercentage) = true) ↔ _
  exact decide_eq_true_iff

/-- C10: every final score lies in [20, 99] — the statistical base of 20 bounds
every resolver outcome from below, so the below-10 floor branch can never fire
(the final score coincides with the cap-only clamp of the resolved score). -/
theorem score_range_invariant (text : String) (cloud : Option CloudVerdict) :
    20 ≤ (resolvedVerdict text cloud).score ∧
    10 ≤ (resolvedVerdict text cloud).score ∧
    (performAnalysis text cloud).aiPercentage =
      (if 99 < (resolvedVerdict text cloud).score then 99
       else (resolvedVerdict text cloud).score) ∧
    20 ≤ (performAnalysis text cloud).aiPercentage ∧
    (performAnalysis text cloud).aiPercentage ≤ 99 := by
  have hstat : 20 ≤ (localStatisticalAnalysis text).score := twenty_le_statScore text
  have hres : 20 ≤ (resolvedVerdict text cloud).score := by
    by_cases hp : 50 < (checkAIPatterns text).score
    · rw [resolvedVerdict_of_pattern text cloud hp]
      omega
    · cases cloud with
      | none => rw [resolvedVerdict_of_stat text none hp (fun c hc => by cases hc)]; exact hstat
      | some c =>
        by_cases hc : (localStatisticalAnalysis text).score < c.score
        · rw [resolvedVerdict_of_cloud text c hp hc]
          exact le_trans hstat (le_of_lt hc)
        · rw [resolvedVerdict_of_stat text (some c) hp
            (fun d hd => by cases hd; exact not_lt.mp hc)]
          exact hstat
  have hclamp : (performAnalysis text cloud).aiPercentage =
      clampScore (resolvedVerdict text cloud).score := rfl
  refine ⟨hres, by omega, ?_, ?_, ?_⟩ <;>
    rw [hclamp] <;> simp only [clampScore] <;> split_ifs <;> omega

open Classical in
/-- C3: the Statistical Detector always returns a verdict whose score is the
base 20, plus 20 when the mean per-sentence word count lies strictly between
12 and 28, plus 55 when the burstiness (standard deviation of per-sentence
word counts) is strictly below 6, else plus 30 when it is strictly below 12,
plus 10 when the average word length exceeds 5, clamped to at most 100. -/
theorem stat_detector_formula (text : String) :
    (localStatisticalAnalysis text).score =
      min ((20 : ℤ)
        + (if 12 < meanSentenceLen text ∧ meanSentenceLen text < 28 then 20 else 0)
        + (if Real.sqrt (statVariance text : ℝ) < 6 then 55
           else if Real.sqrt (statVariance text : ℝ) < 12 then 30 else 0)
        + (if 5 < avgWordLen text then 10 else 0)) 100 := by
  have h6 : (Real.sqrt ((statVariance text : ℚ) : ℝ) < 6) ↔ statVariance text < 36 := by
    rw [Real.sqrt_lt' (by norm_num : (0:ℝ) < 6),
      show ((6:ℝ) ^ 2) = ((36 : ℚ) : ℝ) from by norm_num, Rat.cast_lt]
  have h12 : (Real.sqrt ((statVariance text : ℚ) : ℝ) < 12) ↔ statVariance text < 144 := by
    rw [Real.sqrt_lt' (by norm_num : (0:ℝ) < 12),
      show ((12:ℝ) ^ 2) = ((144 : ℚ) : ℝ) from by norm_num, Rat.cast_lt]
  show statScore text = _
  simp only [statScore, h6, h12]
  split_ifs <;> norm_num

/-- C4: the Pattern Detector counts the distinct blacklisted phrases occurring
as case-insensitive substrings of the text; zero matches score 0 (abstention),
exactly one scores 65, two or more score 98, and the reason quotes at most
three matched phrases verbatim. -/
theorem pattern_detector_policy (text : String) :
    aiPhrases.Nodup ∧
    ((checkAIPatterns text).score =
      if (matchedPhrases text).length = 0 then 0
      else if (matchedPhrases text).length = 1 then 65 else 98) ∧
    ((matchedPhrases text).length = 0 → (checkAIPatterns text).reason = "") ∧
    (0 < (matchedPhrases text).length →
      ((matchedPhrases text).take 3).length ≤ 3 ∧
      (∀ p ∈ (matchedPhrases text).take 3,
        p ∈ aiPhrases ∧ occursIn (lowerL p.data) (lowerL text.data) = true) ∧
      (checkAIPatterns text).reason =
        "Detected AI-typical phrasing: \"" ++
          String.intercalate "\", \"" ((matchedPhrases text).take 3) ++ "\"") := by
  refine ⟨by decide, ?_, ?_, ?_⟩
  · simp only [checkAIPatterns]
    split_ifs <;> dsimp only <;> omega
  · intro h
    simp only [checkAIPatterns]
    rw [if_neg (by omega)]
  · intro h
    refine ⟨List.length_take_le _ _, ?_, ?_⟩
    · intro p hp
      have hmem : p ∈ matchedPhrases text := List.mem_of_mem_take hp
      exact List.mem_filter.mp hmem
    · simp only [checkAIPatterns]
      rw [if_pos (by omega)]

/-- Witness for C4 at a text with exactly one blacklist phrase. -/
theorem pattern_detector_policy_ex :
    (checkAIPatterns "Furthermore wow.").reason =
      "Detected AI-typical phrasing: \"" ++
        String.intercalate "\", \"" ((matchedPhrases "Furthermore wow.").take 3) ++ "\"" :=
  ((pattern_detector_policy "Furthermore wow.").2.2.2 (by decide)).2.2

/-- C5: the cascade short-circuits — strategy 2 runs only when strategy 1
produced no usable text, strategy 3 only when strategies 1 and 2 both failed
to produce usable text, and a 6-character strategy-1 result suppresses
strategies 2 and 3 entirely. -/
theorem cascade_shortcircuit (s1 s2 s3 : Option String) :
    ((runCascade s1 s2 s3).tried2 = true →
      ∀ t, s1 = some t → (jsTrim t).length < 5) ∧
    ((runCascade s1 s2 s3).tried3 = true →
      (∀ t, s1 = some t → (jsTrim t).length < 5) ∧
      (∀ t, s2 = some t → (jsTrim t).length < 5)) ∧
    (∀ t, s1 = some t → t.length = 6 →
      (runCascade s1 s2 s3).tried2 = false ∧ (runCascade s1 s2 s3).tried3 = false) := by
  have h2iff : (runCascade s1 s2 s3).tried2 = true ↔ (s1.getD "").length < 5 := by
    simp [runCascade]
  have h3iff : (runCascade s1 s2 s3).tried3 = true ↔
      (if (s1.getD "").length < 5 then s2.getD (s1.getD "") else s1.getD "").length < 5 := by
    simp [runCascade]
  refine ⟨?_, ?_, ?_⟩
  · intro h t ht
    have := h2iff.mp h
    rw [ht] at this
    have hle := jsTrim_length_le t
    simp only [Option.getD_some] at this
    omega
  · intro h
    have h3 := h3iff.mp h
    by_cases hg : (s1.getD "").length < 5
    · rw [if_pos hg] at h3
      constructor
      · intro t ht
        rw [ht] at hg
        have hle := jsTrim_length_le t
        simp only [Option.getD_some] at hg
        omega
      · intro t ht
        rw [ht] at h3
        have hle := jsTrim_length_le t
        simp only [Option.getD_some] at h3
        omega
    · rw [if_neg hg] at h3
      exact absurd h3 hg
  · intro t ht hlen
    constructor
    · simp [runCascade, ht, hlen]
    · simp [runCascade, ht, hlen]

/-- Witness for C5: a 6-character strategy-1 result suppresses strategies 2
and 3. -/
theorem cascade_shortcircuit_ex :
    (runCascade (some "abcdef") none none).tried2 = false ∧
    (runCascade (some "abcdef") none none).tried3 = false :=
  (cascade_shortcircuit (some "abcdef") none none).2.2 "abcdef" rfl (by decide)

/-- Counterexample to C6 as stated: all three strategies return text whose
trimmed length is below 5 (so, per the claim, the run should end in the
terminal failure with no AnalysisResult), yet the code accepts the final
3-character candidate and produces an AnalysisResult, because the cascade
guard uses untrimmed length and the terminal check only requires a non-empty
trimmed result. -/
theorem cascade_usability_cex :
    (jsTrim "").length < 5 ∧ (jsTrim "abc").length < 5 ∧
    (runCascade (some "") (some "") (some "abc")).failed = false ∧
    (startScan (some "") (some "") (some "abc") none).isSome = true := by
  refine ⟨by decide, by decide, by decide, ?_⟩
  have h : (runCascade (some "") (some "") (some "abc")).failed = false := by decide
  simp [startScan, h]

/-- C6 (amended): a strategy's text is usable for cascade progression exactly
when its raw (untrimmed) length is at least 5; the run ends in the terminal
"could not extract text" failure, producing no AnalysisResult, exactly when
the final extracted candidate trims to the empty string — in particular, when
every strategy returns empty or whitespace-only text, the run fails and no
AnalysisResult is produced. -/
theorem cascade_guard_semantics (s1 s2 s3 : Option String) (cloud : Option CloudVerdict) :
    ((runCascade s1 s2 s3).tried2 = decide ((s1.getD "").length < 5)) ∧
    ((runCascade s1 s2 s3).tried3 =
      decide ((if (s1.getD "").length < 5 then s2.getD (s1.getD "") else s1.getD "").length < 5)) ∧
    ((runCascade s1 s2 s3).failed = true ↔ jsTrim (runCascade s1 s2 s3).extracted = "") ∧
    (startScan s1 s2 s3 cloud = none ↔ (runCascade s1 s2 s3).failed = true) ∧
    (jsTrim (s1.getD "") = "" → jsTrim (s2.getD "") = "" → jsTrim (s3.getD "") = "" →
      (runCascade s1 s2 s3).failed = true ∧ startScan s1 s2 s3 cloud = none) := by
  have hlen0 : ∀ s : String, s.length = 0 ↔ s = "" := by
    intro s
    cases s with
    | mk d =>
      constructor
      · intro h
        have hd : d = [] := List.length_eq_zero.mp h
        rw [hd]
      · intro h
        rw [h]
        rfl
  have hfail : (runCascade s1 s2 s3).failed = true ↔
      jsTrim (runCascade s1 s2 s3).extracted = "" := by
    have hdef : (runCascade s1 s2 s3).failed =
        decide ((jsTrim (runCascade s1 s2 s3).extracted).length = 0) := rfl
    rw [hdef, decide_eq_true_iff, hlen0]
  have hscan : startScan s1 s2 s3 cloud = none ↔ (runCascade s1 s2 s3).failed = true := by
    simp only [startScan]
    constructor
    · intro h
      by_cases hf : (runCascade s1 s2 s3).failed
      · exact hf
      · rw [if_neg hf] at h
        cases h
    · intro h
      rw [if_pos h]
  refine ⟨by simp [runCascade], by simp [runCascade], hfail, hscan, ?_⟩
  · intro h1 h2 h3
    have hext : jsTrim (runCascade s1 s2 s3).extracted = "" := by
      have he2t :
          jsTrim (if (s1.getD "").length < 5 then s2.getD (s1.getD "") else s1.getD "") = "" := by
        by_cases hg : (s1.getD "").length < 5
        · rw [if_pos hg]
          cases s2 with
          | none => exact h1
          | some t => exact h2
        · rw [if_neg hg]
          exact h1
      have hdef : (runCascade s1 s2 s3).extracted =
          (if (if (s1.getD "").length < 5 then s2.getD (s1.getD "") else s1.getD "").length < 5
           then s3.getD (if (s1.getD "").length < 5 then s2.getD (s1.getD "") else s1.getD "")
           else (if (s1.getD "").length < 5 then s2.getD (s1.getD "") else s1.getD "")) := rfl
      rw [hdef]
      by_cases hg3 :
          (if (s1.getD "").length < 5 then s2.getD (s1.getD "") else s1.getD "").length < 5
      · rw [if_pos hg3]
        cases s3 with
        | none => exact he2t
        | some t => exact h3
      · rw [if_neg hg3]
        exact he2t
    exact ⟨hfail.mpr hext, hscan.mpr (hfail.mpr hext)⟩

/-- Witness for C6 (amended): a whitespace-only strategy-1 result with absent
later strategies fails the run and yields no AnalysisResult. -/
theorem cascade_guard_semantics_ex :
    (runCascade (some "  ") none none).failed = true ∧
    startScan (some "  ") none none none = none :=
  (cascade_guard_semantics (some "  ") none none none).2.2.2.2
    (by decide) (by decide) (by decide)

/-- The `maxScore` accumulator of `detectAI` computes the maximum of the two
probabilities and the initial 0. -/
theorem accumulator_eq_max (fa fb : ℚ) :
    (if (if 0 < fa then (fa, "RoBERTa Model") else ((0 : ℚ), "")).1 < fb
     then (fb, "ChatGPT Detector")
     else (if 0 < fa then (fa, "RoBERTa Model") else ((0 : ℚ), ""))).1
      = max (max 0 fa) fb := by
  by_cases h1 : 0 < fa
  · rw [if_pos h1]
    dsimp only
    by_cases h2 : fa < fb
    · rw [if_pos h2, max_eq_right (le_of_lt h1), max_eq_right (le_of_lt h2)]
    · rw [if_neg h2, max_eq_right (le_of_lt h1), max_eq_left (not_lt.mp h2)]
  · rw [if_neg h1]
    dsimp only
    by_cases h2 : (0 : ℚ) < fb
    · rw [if_pos h2, max_eq_left (not_lt.mp h1), max_eq_right (le_of_lt h2)]
    · rw [if_neg h2, max_eq_left (not_lt.mp h1), max_eq_left (not_lt.mp h2)]

/-- C7: the Remote-Ensemble Detector depends only on the 510-character
truncation of the text submitted to the two endpoints; it abstains (without
error) when either endpoint fails at the network/parsing level, and otherwise
emits a verdict exactly when the maximum AI-label probability across the two
responses exceeds 0.5, with score round(probability × 100). -/
theorem remote_ensemble_policy (text : String) (eA eB eA2 eB2 : String → FetchOutcome)
    (hA : eA (truncate510 text) = eA2 (truncate510 text))
    (hB : eB (truncate510 text) = eB2 (truncate510 text)) :
    detectAI text eA eB = detectAI text eA2 eB2 ∧
    ((eA (truncate510 text) = FetchOutcome.netFail ∨
      eB (truncate510 text) = FetchOutcome.netFail) → detectAI text eA eB = none) ∧
    ((detectAI text eA eB).map CloudVerdict.score =
      if eA (truncate510 text) = FetchOutcome.netFail ∨
         eB (truncate510 text) = FetchOutcome.netFail then none
      else if 1 / 2 < maxProb (eA (truncate510 text)) (eB (truncate510 text)) then
        some (jsRound (maxProb (eA (truncate510 text)) (eB (truncate510 text)) * 100))
      else none) := by
  refine ⟨by simp only [detectAI, hA, hB], ?_, ?_⟩
  · intro h
    simp only [detectAI]
    rw [if_pos h]
  · by_cases hf : eA (truncate510 text) = FetchOutcome.netFail ∨
        eB (truncate510 text) = FetchOutcome.netFail
    · rw [if_pos hf]
      simp only [detectAI]
      rw [if_pos hf]
      rfl
    · rw [if_neg hf]
      simp only [detectAI, maxProb]
      rw [if_neg hf, accumulator_eq_max]
      by_cases hm : (1 : ℚ) / 2 <
          max (max 0 (labelScore wantA (eA (truncate510 text))))
            (labelScore wantB (eB (truncate510 text)))
      · rw [if_pos hm, if_pos hm]
        rfl
      · rw [if_neg hm, if_neg hm]
        rfl

/-- Witness for C7: failing endpoints make the detector abstain. -/
theorem remote_ensemble_policy_ex :
    detectAI "sample" (fun _ => FetchOutcome.netFail) (fun _ => FetchOutcome.netFail) = none :=
  (remote_ensemble_policy "sample" (fun _ => FetchOutcome.netFail)
      (fun _ => FetchOutcome.netFail) (fun _ => FetchOutcome.netFail)
      (fun _ => FetchOutcome.netFail) rfl rfl).2.1 (Or.inl rfl)

/-- C9 (amended): for every text with zero phrase matches, burstiness at least
12, mean sentence length outside (12, 28), and average word length at most 5
(the condition the original claim omits), with no Remote-Ensemble verdict
exceeding the Statistical score, the resolved and final scores are exactly 20. -/
theorem stat_floor_inactive (text : String) (cloud : Option CloudVerdict)
    (h0 : (matchedPhrases text).length = 0)
    (h1 : 12 ≤ Real.sqrt (statVariance text : ℝ))
    (h2 : meanSentenceLen text ≤ 12 ∨ 28 ≤ meanSentenceLen text)
    (h3 : avgWordLen text ≤ 5)
    (h4 : ∀ c, cloud = some c → c.score ≤ (localStatisticalAnalysis text).score) :
    (resolvedVerdict text cloud).score = 20 ∧
    (performAnalysis text cloud).aiPercentage = 20 := by
  have hv : (144 : ℚ) ≤ statVariance text := by
    have h144 : ((12 : ℝ)) ^ 2 ≤ (statVariance text : ℝ) :=
      (Real.le_sqrt' (by norm_num)).mp h1
    have hc : ((144 : ℚ) : ℝ) ≤ (statVariance text : ℝ) := by
      rw [show ((144 : ℚ) : ℝ) = (12 : ℝ) ^ 2 from by norm_num]
      exact h144
    exact_mod_cast hc
  have hm : ¬ (12 < meanSentenceLen text ∧ meanSentenceLen text < 28) := by
    rintro ⟨ha, hb⟩
    rcases h2 with h | h
    · linarith
    · linarith
  have h36 : ¬ statVariance text < 36 := by linarith
  have h144n : ¬ statVariance text < 144 := by linarith
  have hwn : ¬ 5 < avgWordLen text := not_lt.mpr h3
  have hs : statScore text = 20 := by
    simp only [statScore]
    rw [if_neg hm, if_neg h36, if_neg h144n, if_neg hwn]
    decide
  have hstat20 : (localStatisticalAnalysis text).score = 20 := hs
  have hpat : (checkAIPatterns text).score = 0 := by
    simp only [checkAIPatterns]
    rw [if_neg (by omega : ¬ (matchedPhrases text).length > 0)]
  have hres : resolvedVerdict text cloud = localStatisticalAnalysis text :=
    resolvedVerdict_of_stat text cloud (by rw [hpat]; norm_num) h4
  constructor
  · rw [hres]
    exact hstat20
  · have hpa : (performAnalysis text cloud).aiPercentage =
        clampScore (resolvedVerdict text cloud).score := rfl
    rw [hpa, hres, hstat20]
    decide

/-- Witness for C9 (amended) at a three-sentence text with word counts
1, 2, 30 (variance 542/3, so burstiness ≈ 13.4), mean 11 and short words. -/
theorem stat_floor_inactive_ex :
    (resolvedVerdict sampleShortWords none).score = 20 ∧
    (performAnalysis sampleShortWords none).aiPercentage = 20 := by
  have hwc : wordCounts sampleShortWords = [1, 2, 30] := by decide
  have hsum : ((wordsOf sampleShortWords).map List.length).sum = 35 := by decide
  have hcnt : (wordsOf sampleShortWords).length = 31 := by decide
  have hmean : meanSentenceLen sampleShortWords = 11 := by
    simp only [meanSentenceLen, hwc]
    norm_num [List.sum_cons, List.sum_nil, List.length_cons, List.length_nil]
  have hvar : statVariance sampleShortWords = 542 / 3 := by
    simp only [statVariance, hwc, hmean]
    norm_num [List.map_cons, List.map_nil, List.sum_cons, List.sum_nil,
      List.length_cons, List.length_nil]
  have hwl : avgWordLen sampleShortWords = 35 / 31 := by
    simp only [avgWordLen, hsum, hcnt]
    norm_num
  refine stat_floor_inactive sampleShortWords none (by decide) ?_ ?_ ?_
    (fun c hc => by cases hc)
  · rw [hvar, Real.le_sqrt' (by norm_num),
      show (((542 : ℚ) / 3 : ℚ) : ℝ) = (542 / 3 : ℝ) from by push_cast; ring]
    norm_num
  · left
    rw [hmean]
    norm_num
  · rw [hwl]
    norm_num

/-- Counterexample to C9 as stated: a text meeting all of the claim's
hypotheses (no phrase matches, burstiness ≥ 12, mean sentence length below 12,
no remote verdict) whose average word length exceeds 5, so the +10 vocabulary
bonus (which the claim overlooks) makes the resolved and final scores 30, not
20. -/
theorem stat_floor_cex :
    (matchedPhrases sampleLongWords).length = 0 ∧
    12 ≤ Real.sqrt (statVariance sampleLongWords : ℝ) ∧
    meanSentenceLen sampleLongWords < 12 ∧
    (resolvedVerdict sampleLongWords none).score = 30 ∧
    (performAnalysis sampleLongWords none).aiPercentage = 30 := by
  have hwc : wordCounts sampleLongWords = [1, 2, 30] := by decide
  have hsum : ((wordsOf sampleLongWords).map List.length).sum = 184 := by decide
  have hcnt : (wordsOf sampleLongWords).length = 31 := by decide
  have h0 : (matchedPhrases sampleLongWords).length = 0 := by decide
  have hmean : meanSentenceLen sampleLongWords = 11 := by
    simp only [meanSentenceLen, hwc]
    norm_num [List.sum_cons, List.sum_nil, List.length_cons, List.length_nil]
  have hvar : statVariance sampleLongWords = 542 / 3 := by
    simp only [statVariance, hwc, hmean]
    norm_num [List.map_cons, List.map_nil, List.sum_cons, List.sum_nil,
      List.length_cons, List.length_nil]
  have hwl : avgWordLen sampleLongWords = 184 / 31 := by
    simp only [avgWordLen, hsum, hcnt]
    norm_num
  have hs : statScore sampleLongWords = 30 := by
    simp only [statScore, hmean, hvar, hwl]
    norm_num
  have hpat : (checkAIPatterns sampleLongWords).score = 0 := by
    simp only [checkAIPatterns]
    rw [if_neg (by omega : ¬ (matchedPhrases sampleLongWords).length > 0)]
  have hres : resolvedVerdict sampleLongWords none =
      localStatisticalAnalysis sampleLongWords :=
    resolvedVerdict_of_stat sampleLongWords none (by rw [hpat]; norm_num)
      (fun c hc => by cases hc)
  have hscore : (resolvedVerdict sampleLongWords none).score = 30 := by
    rw [hres]
    exact hs
  refine ⟨h0, ?_, by rw [hmean]; norm_num, hscore, ?_⟩
  · rw [hvar, Real.le_sqrt' (by norm_num),
      show (((542 : ℚ) / 3 : ℚ) : ℝ) = (542 / 3 : ℝ) from by push_cast; ring]
    norm_num
  · have hpa : (performAnalysis sampleLongWords none).aiPercentage =
        clampScore (resolvedVerdict sampleLongWords none).score := rfl
    rw [hpa, hscore]
    decide
